import Mathlib

/-!
Verification development for the HYVEMYND icon generator
(`generate-icons.py`).

The script reads one source logo image and writes a fixed set of resized
icons: for each entry of an Android size table it writes `ic_launcher.png`,
`ic_launcher_round.png` and a padded `ic_launcher_foreground.png` into
`android/app/src/main/res/mipmap-<density>/`, and for each favicon size it
writes `www/assets/images/favicon-<size>.png`.

The embedding below models:
* raster images as a mode string, dimensions, and a pixel function;
* the external imaging library's primitives (`Image.new`, `resize`,
  `convert("RGBA")`, `paste` with a mask) — the pixel content produced by
  the resampling filter is kept abstract via a `Resample` parameter, since
  only its determinism, its output dimensions and its mode preservation
  matter to the script;
* Python's `int(size * 0.7)` exactly, as IEEE-754 double multiplication
  (correctly rounded, round-to-nearest-even) followed by truncation;
* the filesystem and console as explicit state threaded through the
  procedure `generate_app_icons`.
-/

namespace HyveMynd

/-- One pixel: red, green, blue and alpha channel values (0..255). -/
structure RGBA where
  r : Nat
  g : Nat
  b : Nat
  a : Nat

/-- A decoded raster image: a pixel-format mode string (as in the imaging
library, e.g. "RGBA" or "RGB"), dimensions, and the pixel grid as a
function (only coordinates below the dimensions are meaningful). -/
structure Image where
  mode : String
  width : Nat
  height : Nat
  pixel : Nat → Nat → RGBA

/-- Model of the library primitive `Image.new(mode, (w, h), color)` as used
by the script: a fresh "RGBA" canvas with every pixel set to `c`. -/
def Image.new (w h : Nat) (c : RGBA) : Image :=
  { mode := "RGBA", width := w, height := h, pixel := fun _ _ => c }

/-- The pixel content produced by the library's resampling filter (the
script uses `Image.Resampling.LANCZOS`): given the source image, the target
width and height, and a target coordinate, it yields the resampled pixel.
Kept as a parameter — it is a deterministic function of exactly these
arguments, which is all the script relies on. -/
def Resample : Type :=
  Image → Nat → Nat → Nat → Nat → RGBA

/-- Model of `img.resize((w, h), filter)`: the result has the requested
dimensions, the mode of the source, and pixel content produced by the
resampling filter. -/
def Image.resize (resample : Resample) (img : Image) (w h : Nat) : Image :=
  { mode := img.mode, width := w, height := h, pixel := resample img w h }

/-- Which library modes carry an alpha channel. -/
def modeHasAlpha (m : String) : Bool :=
  m == "RGBA" || m == "LA" || m == "PA" || m == "RGBa" || m == "La"

/-- Model of `img.convert("RGBA")`: the mode becomes "RGBA"; a source
without an alpha channel becomes fully opaque (alpha 255), a source that
already has alpha keeps it. -/
def Image.convertRGBA (img : Image) : Image :=
  { mode := "RGBA", width := img.width, height := img.height,
    pixel := fun x y =>
      let p := img.pixel x y
      if modeHasAlpha img.mode then p else { p with a := 255 } }

/-- One channel of the masked-paste blend: where the mask value `m` is 255
the source channel replaces the canvas channel, where it is 0 the canvas is
kept, and intermediate values interpolate. -/
def blend (c s m : Nat) : Nat :=
  (c * (255 - m) + s * m) / 255

/-- Model of `canvas.paste(src, (px, py), mask)`: inside the box
`[px, px + src.width) × [py, py + src.height)` the source is blended in
through the mask's alpha channel; every pixel outside the box is the
canvas's own pixel, untouched. -/
def Image.paste (canvas src : Image) (px py : Nat) (mask : Image) : Image :=
  { canvas with pixel := fun x y =>
      if px ≤ x ∧ x < px + src.width ∧ py ≤ y ∧ y < py + src.height then
        let m := (mask.pixel (x - px) (y - py)).a
        let s := src.pixel (x - px) (y - py)
        let c := canvas.pixel x y
        ⟨blend c.r s.r m, blend c.g s.g m, blend c.b s.b m, blend c.a s.a m⟩
      else canvas.pixel x y }

/-! ### Exact model of Python's `int(size * 0.7)`

`0.7` is not representable in binary floating point; the Python literal
denotes the nearest IEEE-754 double, `3152519739159347 / 2^52`.  The
product `size * 0.7` is the correctly rounded (round-to-nearest, ties to
even) double nearest to the exact rational product, and `int(...)`
truncates toward zero. -/

/-- The numerator of the IEEE-754 double nearest to 0.7: the double `0.7`
is exactly `3152519739159347 / 2^52`. -/
def c07mant : Nat := 3152519739159347

/-- Bit length of `n` (0 for 0), with explicit fuel: `bits f n` is the bit
length of `n` whenever `f` is at least that length. -/
def bits : Nat → Nat → Nat
  | 0, _ => 0
  | _ + 1, 0 => 0
  | f + 1, n + 1 => bits f ((n + 1) / 2) + 1

/-- Round the rational `p / q` to the nearest integer, ties to even. -/
def roundHalfEven (p q : Nat) : Nat :=
  let d := p / q
  let r := p % q
  if 2 * r < q then d
  else if q < 2 * r then d + 1
  else if d % 2 = 0 then d else d + 1

/-- Exact value of Python's `int(size * 0.7)`: the exact product
`size * c07mant / 2^52` is rounded to a 53-bit mantissa (round-to-nearest,
ties to even — the IEEE-754 double multiplication), then truncated toward
zero.  The fuel `size + 52` always covers the bit length of the product. -/
def pyIntMul07 (size : Nat) : Nat :=
  let p := size * c07mant
  let bl := bits (size + 52) p
  if bl ≤ 53 then p / 2 ^ 52
  else roundHalfEven p (2 ^ (bl - 53)) * 2 ^ (bl - 53) / 2 ^ 52

/-! ### Program state: filesystem and console -/

/-- The observable state the script acts on: the files on disk (an
association list, most recent write first), the set of directories made,
and the console transcript. -/
structure PState where
  files : List (String × Image)
  dirs : List String
  out : List String

/-- Look up the current content of the file at path `p` (most recent write
wins). -/
def lookupFile (fs : List (String × Image)) (p : String) : Option Image :=
  (fs.find? fun e => e.1 == p).map fun e => e.2

/-- Model of saving an image to a path: the write shadows any earlier
content at the same path. -/
def writeFile (s : PState) (p : String) (img : Image) : PState :=
  { s with files := (p, img) :: s.files }

/-- Model of `os.makedirs(d, exist_ok=True)`: records the directory,
without error when it already exists. -/
def makeDirs (s : PState) (d : String) : PState :=
  { s with dirs := if s.dirs.contains d then s.dirs else d :: s.dirs }

/-- Model of `print`: appends one line to the console transcript. -/
def printLine (s : PState) (m : String) : PState :=
  { s with out := s.out ++ [m] }

/-! ### The icon generator, translated from `generate-icons.py` -/

/-- The Android size table from the script. -/
def android_sizes : List (Nat × String) :=
  [(36, "ldpi"), (48, "mdpi"), (72, "hdpi"), (96, "xhdpi"),
   (144, "xxhdpi"), (192, "xxxhdpi")]

/-- The Android resource root from the script. -/
def android_icon_dir : String := "android/app/src/main/res"

/-- The favicon size table from the script. -/
def favicon_sizes : List Nat := [16, 32, 48, 64, 128, 256]

/-- The per-density mipmap directory. -/
def mipmapDir (density : String) : String :=
  android_icon_dir ++ "/mipmap-" ++ density

/-- The value `logo_resized` before the mode check: the logo resized to
`padded_size × padded_size` where `padded_size = int(size * 0.7)`. -/
def logoResizedAt (resample : Resample) (logo : Image) (size : Nat) : Image :=
  Image.resize resample logo (pyIntMul07 size) (pyIntMul07 size)

/-- The value `logo_resized` after the mode check: converted to "RGBA" when
its mode is not already "RGBA". -/
def pastedLogoAt (resample : Resample) (logo : Image) (size : Nat) : Image :=
  let lr := logoResizedAt resample logo size
  if lr.mode ≠ "RGBA" then lr.convertRGBA else lr

/-- The `foreground` image written as `ic_launcher_foreground.png`: the
prepared logo pasted (self-masked) onto a fully transparent canvas at
`(padding, padding)` where `padding = (size - padded_size) // 2`. -/
def foregroundAt (resample : Resample) (logo : Image) (size : Nat) : Image :=
  Image.paste (Image.new size size ⟨0, 0, 0, 0⟩)
    (pastedLogoAt resample logo size)
    ((size - pyIntMul07 size) / 2) ((size - pyIntMul07 size) / 2)
    (pastedLogoAt resample logo size)

/-- The `resized` full-bleed image written as `ic_launcher.png`,
`ic_launcher_round.png` and `favicon-<size>.png`. -/
def fullBleedAt (resample : Resample) (logo : Image) (size : Nat) : Image :=
  Image.resize resample logo size size

/-- One iteration of the Android loop of `generate_app_icons`. -/
def processAndroidEntry (resample : Resample) (logo : Image)
    (s : PState) (entry : Nat × String) : PState :=
  let size := entry.1
  let density := entry.2
  let icon_dir := mipmapDir density
  let s := makeDirs s icon_dir
  let s := writeFile s (icon_dir ++ "/ic_launcher.png") (fullBleedAt resample logo size)
  let s := writeFile s (icon_dir ++ "/ic_launcher_round.png") (fullBleedAt resample logo size)
  let s := writeFile s (icon_dir ++ "/ic_launcher_foreground.png") (foregroundAt resample logo size)
  printLine s ("✅ Generated " ++ toString size ++ "x" ++ toString size ++ " icons for " ++ density)

/-- One iteration of the favicon loop of `generate_app_icons`. -/
def processFavicon (resample : Resample) (logo : Image)
    (s : PState) (size : Nat) : PState :=
  let s := writeFile s ("www/assets/images/favicon-" ++ toString size ++ ".png")
    (fullBleedAt resample logo size)
  printLine s ("✅ Generated favicon-" ++ toString size ++ ".png")

/-- The whole procedure `generate_app_icons(logo_path)`: if no file exists
at `logo_path` it prints guidance and returns with no other effect;
otherwise it opens the logo, runs the Android loop, the favicon loop, and
prints the closing messages. -/
def generate_app_icons (resample : Resample) (logo_path : String) (s : PState) : PState :=
  match lookupFile s.files logo_path with
  | none =>
      printLine (printLine s ("Please add your logo as: " ++ logo_path))
        "Recommended: 512x512 PNG with transparent background"
  | some logo =>
      let s := android_sizes.foldl (processAndroidEntry resample logo) s
      let s := favicon_sizes.foldl (processFavicon resample logo) s
      let s := printLine s "\n🎉 All app icons generated!"
      let s := printLine s "📋 To use your own logo:"
      let s := printLine s "   1. Replace www/assets/images/logo.png with your 512x512 PNG"
      let s := printLine s "   2. Run: python generate-icons.py"
      printLine s "   3. Rebuild Android: npx cap build android"

/-! ### The write set of a successful run -/

/-- Every file write a successful run performs, in program order, with the
image written. -/
def outputWrites (resample : Resample) (logo : Image) : List (String × Image) :=
  (android_sizes.flatMap fun e =>
    [(mipmapDir e.2 ++ "/ic_launcher.png", fullBleedAt resample logo e.1),
     (mipmapDir e.2 ++ "/ic_launcher_round.png", fullBleedAt resample logo e.1),
     (mipmapDir e.2 ++ "/ic_launcher_foreground.png", foregroundAt resample logo e.1)]) ++
  favicon_sizes.map fun n =>
    ("www/assets/images/favicon-" ++ toString n ++ ".png", fullBleedAt resample logo n)

/-- The paths of every file a successful run writes. -/
def outputPaths : List String :=
  (android_sizes.flatMap fun e =>
    [mipmapDir e.2 ++ "/ic_launcher.png",
     mipmapDir e.2 ++ "/ic_launcher_round.png",
     mipmapDir e.2 ++ "/ic_launcher_foreground.png"]) ++
  favicon_sizes.map fun n => "www/assets/images/favicon-" ++ toString n ++ ".png"

theorem outputWrites_keys (resample : Resample) (logo : Image) :
    (outputWrites resample logo).map Prod.fst = outputPaths := rfl

/-! ### Helper lemmas about file lookup -/

theorem lookupFile_nil (p : String) : lookupFile [] p = none := rfl

theorem lookupFile_cons (e : String × Image) (l : List (String × Image)) (p : String) :
    lookupFile (e :: l) p = if e.1 == p then some e.2 else lookupFile l p := by
  cases hc : e.1 == p <;> simp [lookupFile, List.find?, hc]

theorem lookupFile_append_left {l : List (String × Image)} {p : String}
    (t : List (String × Image)) (h : (lookupFile l p).isSome) :
    lookupFile (l ++ t) p = lookupFile l p := by
  induction l with
  | nil => simp [lookupFile] at h
  | cons e l ih =>
      by_cases hc : e.1 = p
      · simp [List.cons_append, lookupFile_cons, hc]
      · rw [lookupFile_cons, if_neg (by simp [hc])] at h
        simp [List.cons_append, lookupFile_cons, hc, ih h]

theorem lookupFile_append_right {l : List (String × Image)} {p : String}
    (t : List (String × Image)) (h : lookupFile l p = none) :
    lookupFile (l ++ t) p = lookupFile t p := by
  induction l with
  | nil => rfl
  | cons e l ih =>
      by_cases hc : e.1 = p
      · rw [lookupFile_cons, if_pos (by simp [hc])] at h
        exact absurd h (by simp)
      · rw [lookupFile_cons, if_neg (by simp [hc])] at h
        simp [List.cons_append, lookupFile_cons, hc, ih h]

theorem lookupFile_isSome_of_mem_keys {l : List (String × Image)} {p : String}
    (h : p ∈ l.map Prod.fst) : (lookupFile l p).isSome := by
  induction l with
  | nil => simp at h
  | cons e l ih =>
      by_cases hc : e.1 = p
      · simp [lookupFile_cons, hc]
      · simp only [List.map_cons, List.mem_cons] at h
        rcases h with h | h
        · exact absurd h.symm hc
        · simp [lookupFile_cons, hc, ih h]

theorem lookupFile_eq_none_of_not_mem_keys {l : List (String × Image)} {p : String}
    (h : p ∉ l.map Prod.fst) : lookupFile l p = none := by
  induction l with
  | nil => rfl
  | cons e l ih =>
      simp only [List.map_cons, List.mem_cons] at h
      push_neg at h
      rw [lookupFile_cons, if_neg (by simp [Ne.symm h.1])]
      exact ih h.2

/-- Frame lemma: on a successful run, the files afterwards are exactly the
run's writes (in shadowing order) in front of the files before. -/
theorem generate_files_eq (resample : Resample) (logo_path : String)
    (logo : Image) (s : PState) (h : lookupFile s.files logo_path = some logo) :
    (generate_app_icons resample logo_path s).files =
      (outputWrites resample logo).reverse ++ s.files := by
  unfold generate_app_icons
  rw [h]
  rfl

/-! ### Concrete fixtures used by witnesses -/

/-- A concrete resampling filter (constant pixels), standing in for the
library's Lanczos filter in concrete evaluations. -/
def resample0 : Resample := fun _ _ _ _ _ => ⟨0, 0, 0, 0⟩

/-- A concrete 512×512 opaque red RGBA source logo. -/
def logo0 : Image :=
  { mode := "RGBA", width := 512, height := 512, pixel := fun _ _ => ⟨255, 0, 0, 255⟩ }

/-- A concrete RGB (no alpha channel) source logo. -/
def logoRGB : Image :=
  { mode := "RGB", width := 512, height := 512, pixel := fun _ _ => ⟨255, 0, 0, 0⟩ }

/-- The script's default source path. -/
def defaultLogoPath : String := "www/assets/images/logo.png"

/-- A concrete starting state holding only the source logo. -/
def s0 : PState := ⟨[(defaultLogoPath, logo0)], [], []⟩

/-! ### C3 and C4: the padding computation -/

/-- Claim C3: for every entry `(pixelSize, densityLabel)` of the Android
table, the code's `int(size * 0.7)` — computed in binary floating point and
modelled exactly by `pyIntMul07` — equals the exact mathematical value
`floor(7 * pixelSize / 10)`, and the offset `(pixelSize - paddedSize) // 2`
equals `floor((pixelSize - floor(7 * pixelSize / 10)) / 2)`. -/
theorem padding_matches_exact_floor :
    ∀ e ∈ android_sizes,
      pyIntMul07 e.1 = 7 * e.1 / 10 ∧
      (e.1 - pyIntMul07 e.1) / 2 = (e.1 - 7 * e.1 / 10) / 2 := by decide

theorem padding_matches_exact_floor_witness :
    ((48, "mdpi") ∈ android_sizes) ∧
      pyIntMul07 48 = 7 * 48 / 10 ∧ (48 - pyIntMul07 48) / 2 = (48 - 7 * 48 / 10) / 2 :=
  ⟨by decide, padding_matches_exact_floor (48, "mdpi") (by decide)⟩

/-- Claim C4: for every entry of the Android table, the derived padding
values satisfy `offset * 2 + paddedSize ≤ pixelSize`. -/
theorem padding_invariant :
    ∀ e ∈ android_sizes,
      ((e.1 - pyIntMul07 e.1) / 2) * 2 + pyIntMul07 e.1 ≤ e.1 := by decide

theorem padding_invariant_witness :
    ((36, "ldpi") ∈ android_sizes) ∧
      ((36 - pyIntMul07 36) / 2) * 2 + pyIntMul07 36 ≤ 36 :=
  ⟨by decide, padding_invariant (36, "ldpi") (by decide)⟩

/-! ### C1: foreground layer geometry -/

theorem pastedLogoAt_width (resample : Resample) (logo : Image) (n : Nat) :
    (pastedLogoAt resample logo n).width = pyIntMul07 n := by
  simp only [pastedLogoAt, logoResizedAt, Image.resize, Image.convertRGBA]
  split <;> rfl

theorem pastedLogoAt_height (resample : Resample) (logo : Image) (n : Nat) :
    (pastedLogoAt resample logo n).height = pyIntMul07 n := by
  simp only [pastedLogoAt, logoResizedAt, Image.resize, Image.convertRGBA]
  split <;> rfl

/-- Outside the pasted box, the foreground keeps the canvas's fully
transparent pixels. -/
theorem foregroundAt_alpha_outside (resample : Resample) (logo : Image) (n x y : Nat)
    (hout : x < (n - pyIntMul07 n) / 2 ∨ (n - pyIntMul07 n) / 2 + pyIntMul07 n ≤ x ∨
            y < (n - pyIntMul07 n) / 2 ∨ (n - pyIntMul07 n) / 2 + pyIntMul07 n ≤ y) :
    ((foregroundAt resample logo n).pixel x y).a = 0 := by
  have hw := pastedLogoAt_width resample logo n
  have hh := pastedLogoAt_height resample logo n
  unfold foregroundAt Image.paste
  simp only
  rw [if_neg ?_]
  · rfl
  · rw [hw, hh]
    omega

/-- Variant of `foregroundAt_alpha_outside` with the padded size written as
the exact mathematical floor, under the hypothesis that the code's
floating-point padded size agrees with it. -/
theorem foregroundAt_alpha_outside_floor (resample : Resample) (logo : Image)
    (n x y : Nat) (heq : pyIntMul07 n = 7 * n / 10)
    (hout : x < (n - 7 * n / 10) / 2 ∨ (n - 7 * n / 10) / 2 + 7 * n / 10 ≤ x ∨
            y < (n - 7 * n / 10) / 2 ∨ (n - 7 * n / 10) / 2 + 7 * n / 10 ≤ y) :
    ((foregroundAt resample logo n).pixel x y).a = 0 := by
  apply foregroundAt_alpha_outside
  rw [heq]
  exact hout

/-- Claim C1: for every Android table entry, the image written to
`ic_launcher_foreground.png` is an s×s "RGBA" image whose pixels outside
the centered square `[offset, offset + paddedSize)²` are fully transparent,
with `paddedSize = floor(7 s / 10)` and `offset = floor((s - paddedSize) / 2)`. -/
theorem foreground_padded_transparency (resample : Resample) (logo_path : String)
    (s : PState) (logo : Image) (h : lookupFile s.files logo_path = some logo) :
    ∀ e ∈ android_sizes,
      lookupFile (generate_app_icons resample logo_path s).files
          (mipmapDir e.2 ++ "/ic_launcher_foreground.png")
        = some (foregroundAt resample logo e.1) ∧
      (foregroundAt resample logo e.1).mode = "RGBA" ∧
      (foregroundAt resample logo e.1).width = e.1 ∧
      (foregroundAt resample logo e.1).height = e.1 ∧
      ∀ x y, x < e.1 → y < e.1 →
        (x < (e.1 - 7 * e.1 / 10) / 2 ∨ (e.1 - 7 * e.1 / 10) / 2 + 7 * e.1 / 10 ≤ x ∨
         y < (e.1 - 7 * e.1 / 10) / 2 ∨ (e.1 - 7 * e.1 / 10) / 2 + 7 * e.1 / 10 ≤ y) →
        ((foregroundAt resample logo e.1).pixel x y).a = 0 := by
  have hfiles := generate_files_eq resample logo_path logo s h
  intro e he
  fin_cases he <;>
    exact ⟨by rw [hfiles]; rfl, rfl, rfl, rfl,
      fun x y _ _ hout =>
        foregroundAt_alpha_outside_floor _ _ _ _ _ (by decide) hout⟩

theorem foreground_padded_transparency_witness :
    ((48, "mdpi") ∈ android_sizes) ∧
      ((foregroundAt resample0 logo0 48).pixel 0 47).a = 0 :=
  ⟨by decide,
    ((foreground_padded_transparency resample0 defaultLogoPath s0 logo0 rfl
        (48, "mdpi") (by decide)).2.2.2.2) 0 47 (by decide) (by decide)
      (Or.inl (by decide))⟩

/-! ### C2: missing source soft-fail -/

/-- Claim C2: when no file exists at the source path, `generate_app_icons`
returns normally (it is a total function of the state), creates no file and
no directory, and only reports the missing path and the expected format on
the console. -/
theorem missing_source_soft_fail (resample : Resample) (logo_path : String)
    (s : PState) (h : lookupFile s.files logo_path = none) :
    (generate_app_icons resample logo_path s).files = s.files ∧
    (generate_app_icons resample logo_path s).dirs = s.dirs ∧
    (generate_app_icons resample logo_path s).out =
      s.out ++ ["Please add your logo as: " ++ logo_path,
                "Recommended: 512x512 PNG with transparent background"] := by
  unfold generate_app_icons
  rw [h]
  refine ⟨rfl, rfl, ?_⟩
  simp [printLine]

theorem missing_source_soft_fail_witness :
    (generate_app_icons resample0 defaultLogoPath ⟨[], [], []⟩).files = [] ∧
    (generate_app_icons resample0 defaultLogoPath ⟨[], [], []⟩).dirs = [] ∧
    (generate_app_icons resample0 defaultLogoPath ⟨[], [], []⟩).out =
      [] ++ ["Please add your logo as: " ++ defaultLogoPath,
             "Recommended: 512x512 PNG with transparent background"] :=
  missing_source_soft_fail resample0 defaultLogoPath ⟨[], [], []⟩ rfl

/-! ### C5: the two launcher files are identical -/

/-- Claim C5: for every density of the Android table, the run writes the
very same image to `ic_launcher.png` and `ic_launcher_round.png` — and PNG
encoding being a deterministic function of the image, the two files are
byte-identical. -/
theorem launcher_round_identical (resample : Resample) (logo_path : String)
    (s : PState) (logo : Image) (h : lookupFile s.files logo_path = some logo) :
    ∀ e ∈ android_sizes,
      lookupFile (generate_app_icons resample logo_path s).files
          (mipmapDir e.2 ++ "/ic_launcher.png")
        = lookupFile (generate_app_icons resample logo_path s).files
          (mipmapDir e.2 ++ "/ic_launcher_round.png") ∧
      lookupFile (generate_app_icons resample logo_path s).files
          (mipmapDir e.2 ++ "/ic_launcher.png")
        = some (fullBleedAt resample logo e.1) := by
  have hfiles := generate_files_eq resample logo_path logo s h
  intro e he
  fin_cases he <;> exact ⟨by rw [hfiles]; rfl, by rw [hfiles]; rfl⟩

theorem launcher_round_identical_witness :
    ((72, "hdpi") ∈ android_sizes) ∧
      lookupFile (generate_app_icons resample0 defaultLogoPath s0).files
          (mipmapDir "hdpi" ++ "/ic_launcher.png")
        = lookupFile (generate_app_icons resample0 defaultLogoPath s0).files
          (mipmapDir "hdpi" ++ "/ic_launcher_round.png") ∧
      lookupFile (generate_app_icons resample0 defaultLogoPath s0).files
          (mipmapDir "hdpi" ++ "/ic_launcher.png")
        = some (fullBleedAt resample0 logo0 72) :=
  ⟨by decide,
    launcher_round_identical resample0 defaultLogoPath s0 logo0 rfl (72, "hdpi") (by decide)⟩

/-! ### C6: output dimensions -/

/-- Claim C6: for every Android table entry the written `ic_launcher.png`
is exactly `s × s`, and for every favicon size the file
`www/assets/images/favicon-<size>.png` is created with exact dimensions
`size × size`. -/
theorem output_dimensions (resample : Resample) (logo_path : String)
    (s : PState) (logo : Image) (h : lookupFile s.files logo_path = some logo) :
    (∀ e ∈ android_sizes,
      lookupFile (generate_app_icons resample logo_path s).files
          (mipmapDir e.2 ++ "/ic_launcher.png")
        = some (fullBleedAt resample logo e.1) ∧
      (fullBleedAt resample logo e.1).width = e.1 ∧
      (fullBleedAt resample logo e.1).height = e.1) ∧
    (∀ n ∈ favicon_sizes,
      lookupFile (generate_app_icons resample logo_path s).files
          ("www/assets/images/favicon-" ++ toString n ++ ".png")
        = some (fullBleedAt resample logo n) ∧
      (fullBleedAt resample logo n).width = n ∧
      (fullBleedAt resample logo n).height = n) := by
  have hfiles := generate_files_eq resample logo_path logo s h
  constructor
  · intro e he
    fin_cases he <;> exact ⟨by rw [hfiles]; rfl, rfl, rfl⟩
  · intro n hn
    fin_cases hn <;> exact ⟨by rw [hfiles]; rfl, rfl, rfl⟩

theorem output_dimensions_witness :
    ((192, "xxxhdpi") ∈ android_sizes) ∧ (16 ∈ favicon_sizes) ∧
      lookupFile (generate_app_icons resample0 defaultLogoPath s0).files
          (mipmapDir "xxxhdpi" ++ "/ic_launcher.png")
        = some (fullBleedAt resample0 logo0 192) ∧
      (fullBleedAt resample0 logo0 192).width = 192 ∧
      lookupFile (generate_app_icons resample0 defaultLogoPath s0).files
          ("www/assets/images/favicon-" ++ toString 16 ++ ".png")
        = some (fullBleedAt resample0 logo0 16) ∧
      (fullBleedAt resample0 logo0 16).height = 16 :=
  ⟨by decide, by decide,
    ((output_dimensions resample0 defaultLogoPath s0 logo0 rfl).1
        (192, "xxxhdpi") (by decide)).1,
    ((output_dimensions resample0 defaultLogoPath s0 logo0 rfl).1
        (192, "xxxhdpi") (by decide)).2.1,
    ((output_dimensions resample0 defaultLogoPath s0 logo0 rfl).2 16 (by decide)).1,
    ((output_dimensions resample0 defaultLogoPath s0 logo0 rfl).2 16 (by decide)).2.2⟩

/-! ### C8: alpha channel ensured before compositing -/

/-- Claim C8: for every Android table entry, if the resized logo lacks an
alpha channel, then the image actually composited (after the script's mode
check) is an "RGBA" image whose every pixel is fully opaque (alpha 255). -/
theorem resized_logo_alpha_completed (resample : Resample) (logo : Image) :
    ∀ e ∈ android_sizes,
      modeHasAlpha (logoResizedAt resample logo e.1).mode = false →
      (pastedLogoAt resample logo e.1).mode = "RGBA" ∧
      ∀ x y, ((pastedLogoAt resample logo e.1).pixel x y).a = 255 := by
  intro e _ halpha
  have hmode : (logoResizedAt resample logo e.1).mode ≠ "RGBA" := by
    intro hc
    rw [hc] at halpha
    simp [modeHasAlpha] at halpha
  constructor
  · simp [pastedLogoAt, hmode, Image.convertRGBA]
  · intro x y
    simp [pastedLogoAt, hmode, Image.convertRGBA, halpha]

theorem resized_logo_alpha_completed_witness :
    ((96, "xhdpi") ∈ android_sizes) ∧
      modeHasAlpha (logoResizedAt resample0 logoRGB 96).mode = false ∧
      (pastedLogoAt resample0 logoRGB 96).mode = "RGBA" ∧
      ((pastedLogoAt resample0 logoRGB 96).pixel 3 5).a = 255 :=
  ⟨by decide, rfl,
    (resized_logo_alpha_completed resample0 logoRGB (96, "xhdpi") (by decide) rfl).1,
    (resized_logo_alpha_completed resample0 logoRGB (96, "xhdpi") (by decide) rfl).2 3 5⟩

/-! ### C10: mdpi launcher agrees with favicon-48 -/

/-- The 48×48 image that the claim says both files hold: the source resized
to 48 × 48 with the run's (Lanczos) filter. -/
def specResize48 (resample : Resample) (logo : Image) : Image :=
  Image.resize resample logo 48 48

/-- Claim C10: after a successful run, `mipmap-mdpi/ic_launcher.png` and
`favicon-48.png` hold the same image — both are the source resized to
48×48 with the same filter — so the two saved PNG files have identical
image data. -/
theorem mdpi_launcher_eq_favicon48 (resample : Resample) (logo_path : String)
    (s : PState) (logo : Image) (h : lookupFile s.files logo_path = some logo) :
    lookupFile (generate_app_icons resample logo_path s).files
        (mipmapDir "mdpi" ++ "/ic_launcher.png")
      = lookupFile (generate_app_icons resample logo_path s).files
        "www/assets/images/favicon-48.png" ∧
    lookupFile (generate_app_icons resample logo_path s).files
        "www/assets/images/favicon-48.png"
      = some (specResize48 resample logo) := by
  have hfiles := generate_files_eq resample logo_path logo s h
  exact ⟨by rw [hfiles]; rfl, by rw [hfiles]; rfl⟩

theorem mdpi_launcher_eq_favicon48_witness :
    lookupFile (generate_app_icons resample0 defaultLogoPath s0).files
        (mipmapDir "mdpi" ++ "/ic_launcher.png")
      = lookupFile (generate_app_icons resample0 defaultLogoPath s0).files
        "www/assets/images/favicon-48.png" ∧
    lookupFile (generate_app_icons resample0 defaultLogoPath s0).files
        "www/assets/images/favicon-48.png"
      = some (specResize48 resample0 logo0) :=
  mdpi_launcher_eq_favicon48 resample0 defaultLogoPath s0 logo0 rfl

/-! ### Directory effects -/

theorem mem_makeDirs_dirs (s : PState) (e d : String) :
    d ∈ (makeDirs s e).dirs ↔ d = e ∨ d ∈ s.dirs := by
  unfold makeDirs
  simp only
  split
  · rename_i hc
    have he : e ∈ s.dirs := by simpa using hc
    constructor
    · exact Or.inr
    · rintro (rfl | hd)
      · exact he
      · exact hd
  · simp [List.mem_cons]

theorem mem_foldl_android_dirs (resample : Resample) (logo : Image)
    (l : List (Nat × String)) (s : PState) (d : String) :
    d ∈ (l.foldl (processAndroidEntry resample logo) s).dirs ↔
      d ∈ s.dirs ∨ d ∈ l.map fun e => mipmapDir e.2 := by
  induction l generalizing s with
  | nil => simp
  | cons e l ih =>
      rw [List.foldl_cons, ih]
      have h1 : ∀ x, x ∈ (processAndroidEntry resample logo s e).dirs ↔
          x = mipmapDir e.2 ∨ x ∈ s.dirs :=
        fun x => mem_makeDirs_dirs s (mipmapDir e.2) x
      rw [h1 d]
      simp only [List.map_cons, List.mem_cons]
      tauto

theorem foldl_favicon_dirs (resample : Resample) (logo : Image)
    (l : List Nat) (s : PState) :
    (l.foldl (processFavicon resample logo) s).dirs = s.dirs := by
  induction l generalizing s with
  | nil => rfl
  | cons n l ih => rw [List.foldl_cons, ih]; rfl

theorem generate_dirs_eq (resample : Resample) (logo_path : String)
    (s : PState) (logo : Image) (h : lookupFile s.files logo_path = some logo) :
    (generate_app_icons resample logo_path s).dirs =
      (android_sizes.foldl (processAndroidEntry resample logo) s).dirs := by
  unfold generate_app_icons
  rw [h]
  rfl

/-! ### C7: idempotence -/

/-- Claim C7: running the generator twice with the same unchanged source
(the source path is not one of the output paths, as with the default
`www/assets/images/logo.png`) leaves every output file with exactly the
content the first run gave it — the second run overwrites each output with
the identical image, so the files are byte-for-byte identical. -/
theorem generate_idempotent (resample : Resample) (logo_path : String)
    (s : PState) (logo : Image) (h : lookupFile s.files logo_path = some logo)
    (hnp : logo_path ∉ outputPaths) :
    ∀ p ∈ outputPaths,
      lookupFile (generate_app_icons resample logo_path
          (generate_app_icons resample logo_path s)).files p
        = lookupFile (generate_app_icons resample logo_path s).files p := by
  have h1 := generate_files_eq resample logo_path logo s h
  have hnone : lookupFile (outputWrites resample logo).reverse logo_path = none := by
    apply lookupFile_eq_none_of_not_mem_keys
    intro hm
    apply hnp
    have hk : (outputWrites resample logo).reverse.map Prod.fst = outputPaths.reverse := rfl
    rw [hk] at hm
    exact List.mem_reverse.mp hm
  have h2 : lookupFile (generate_app_icons resample logo_path s).files logo_path = some logo := by
    rw [h1, lookupFile_append_right _ hnone, h]
  have h3 := generate_files_eq resample logo_path logo _ h2
  intro p hp
  have hsome : (lookupFile (outputWrites resample logo).reverse p).isSome := by
    apply lookupFile_isSome_of_mem_keys
    have hk : (outputWrites resample logo).reverse.map Prod.fst = outputPaths.reverse := rfl
    rw [hk]
    exact List.mem_reverse.mpr hp
  rw [h3, h1, lookupFile_append_left _ hsome, lookupFile_append_left _ hsome]

theorem generate_idempotent_witness :
    ("www/assets/images/favicon-256.png" ∈ outputPaths) ∧
      lookupFile (generate_app_icons resample0 defaultLogoPath
          (generate_app_icons resample0 defaultLogoPath s0)).files
          "www/assets/images/favicon-256.png"
        = lookupFile (generate_app_icons resample0 defaultLogoPath s0).files
          "www/assets/images/favicon-256.png" :=
  ⟨by decide,
    generate_idempotent resample0 defaultLogoPath s0 logo0 rfl (by decide)
      "www/assets/images/favicon-256.png" (by decide)⟩

/-! ### C9: side-effect frame -/

/-- A starting state whose source path is itself one of the favicon output
paths: the run then overwrites its own source. -/
def sCtr : PState := ⟨[("www/assets/images/favicon-16.png", logo0)], [], []⟩

/-- Counterexample to claim C9 as stated: with the configurable source path
chosen as the output path `www/assets/images/favicon-16.png` (a 512×512
logo stored there), the run overwrites the source file — its content after
the run (the 16×16 resize) differs from the source image, so the file at
`logo_path` IS modified. -/
theorem source_at_output_path_modified :
    lookupFile sCtr.files "www/assets/images/favicon-16.png" = some logo0 ∧
    lookupFile (generate_app_icons resample0 "www/assets/images/favicon-16.png" sCtr).files
        "www/assets/images/favicon-16.png" ≠ some logo0 := by
  constructor
  · rfl
  · have hl : lookupFile
        (generate_app_icons resample0 "www/assets/images/favicon-16.png" sCtr).files
        "www/assets/images/favicon-16.png" = some (fullBleedAt resample0 logo0 16) := rfl
    rw [hl]
    intro hc
    have hw := congrArg Image.width (Option.some.inj hc)
    exact absurd hw (by decide)

/-- Claim C9 as amended: on every invocation whose existing source path is
not itself one of the 24 output paths (the default
`www/assets/images/logo.png` is not), the only filesystem effects are the
six mipmap directory creations and the writes of exactly the 18 Android
icon files and 6 favicon files; in particular the file at `logo_path` is
unchanged. -/
theorem effects_frame (resample : Resample) (logo_path : String)
    (s : PState) (logo : Image) (h : lookupFile s.files logo_path = some logo)
    (hnp : logo_path ∉ outputPaths) :
    (generate_app_icons resample logo_path s).files
      = (outputWrites resample logo).reverse ++ s.files ∧
    (∀ d, d ∈ (generate_app_icons resample logo_path s).dirs ↔
       d ∈ s.dirs ∨ d ∈ android_sizes.map fun e => mipmapDir e.2) ∧
    lookupFile (generate_app_icons resample logo_path s).files logo_path
      = lookupFile s.files logo_path := by
  refine ⟨generate_files_eq resample logo_path logo s h, ?_, ?_⟩
  · intro d
    rw [generate_dirs_eq resample logo_path s logo h]
    exact mem_foldl_android_dirs resample logo android_sizes s d
  · rw [generate_files_eq resample logo_path logo s h]
    apply lookupFile_append_right
    apply lookupFile_eq_none_of_not_mem_keys
    intro hm
    apply hnp
    have hk : (outputWrites resample logo).reverse.map Prod.fst = outputPaths.reverse := rfl
    rw [hk] at hm
    exact List.mem_reverse.mp hm

theorem effects_frame_witness :
    (generate_app_icons resample0 defaultLogoPath s0).files
      = (outputWrites resample0 logo0).reverse ++ s0.files ∧
    (∀ d, d ∈ (generate_app_icons resample0 defaultLogoPath s0).dirs ↔
       d ∈ s0.dirs ∨ d ∈ android_sizes.map fun e => mipmapDir e.2) ∧
    lookupFile (generate_app_icons resample0 defaultLogoPath s0).files defaultLogoPath
      = lookupFile s0.files defaultLogoPath :=
  effects_frame resample0 defaultLogoPath s0 logo0 rfl (by decide)

end HyveMynd
